import Mathlib

/-!
Verification of the message-validation and classification layer of the
sb-api repository (src/types/index.ts), as a shallow embedding in Lean 4.

JavaScript runtime values that can flow through the validators are
modelled by `JValue` (JSON values plus `undefined`, which arises from
property access on objects lacking the key).  Numbers are modelled as
integers: every concrete number occurring in the claims is integral and
no arithmetic is performed on them.

Exceptions are modelled with `Except`: the caller-supplied `onError`
hook is a function `ErrVal → Except ε JValue` (it may return a fallback
value or throw an arbitrary exception of type `ε`), and the socket
validators return `Except (SocketExn ε) JValue`, where `SocketExn`
also covers the `JSON.parse` syntax error and the `TypeError` raised by
destructuring `null`/`undefined`.

The io-ts decoder is modelled by `Schema`: `decode` returns either the
decoded value or the ordered list of path-qualified error messages (the
output of `PathReporter.report` on the failed decode).  The `debug`
tracing calls of the source have no observable effect and are omitted.
-/

/-- A JavaScript value as it can appear in the validators: the JSON
values plus `undefined`. Objects are ordered field lists, as produced
by `JSON.parse` (a later duplicate key overrides an earlier one). -/
inductive JValue : Type where
  | undef : JValue
  | null : JValue
  | bool (b : Bool) : JValue
  | num (n : Int) : JValue
  | str (s : String) : JValue
  | arr (elems : List JValue) : JValue
  | obj (fields : List (String × JValue)) : JValue

namespace JValue

/-- Object field lookup with JavaScript `JSON.parse` semantics: the
last binding of a duplicated key wins; a missing key is `undefined`. -/
def jlookup (fields : List (String × JValue)) (k : String) : JValue :=
  fields.foldl (fun acc p => if p.1 = k then p.2 else acc) JValue.undef

/-- Property access `v[k]` for the string-named properties the source
reads (`uuid`, `snapshot`, `data`, ...): on an object it is field
lookup, on every other non-nullish value it is `undefined`.  Access on
`null`/`undefined` throws a TypeError in JavaScript; the validators
guard that case separately (`nullish`), so here it is `undefined`. -/
def getField : JValue → String → JValue
  | obj fields, k => jlookup fields k
  | _, _ => JValue.undef

/-- JavaScript truthiness of a `JValue` (NaN cannot arise from
`JSON.parse`, so `num` only covers ordinary numbers). -/
def truthy : JValue → Bool
  | undef => false
  | null => false
  | bool b => b
  | num n => n != 0
  | str s => s != ""
  | arr _ => true
  | obj _ => true

/-- `Array.isArray`. -/
def isArray : JValue → Bool
  | arr _ => true
  | _ => false

/-- `typeof v === "string"`. -/
def isString : JValue → Bool
  | str _ => true
  | _ => false

/-- `typeof v === "number"`. -/
def isNumber : JValue → Bool
  | num _ => true
  | _ => false

/-- `v === null || v === undefined`: destructuring such a value throws
a TypeError. -/
def nullish : JValue → Bool
  | undef => true
  | null => true
  | _ => false

/-- `v === undefined`. -/
def isUndef : JValue → Bool
  | undef => true
  | _ => false

/-- Strict equality `v === s` against a string literal: true exactly
when `v` is that string (`===` performs no coercion). -/
def strictEqStr (v : JValue) (s : String) : Bool :=
  match v with
  | str t => t == s
  | _ => false

end JValue

open JValue

/-- A raw WebSocket frame: its text (`msg.toString()`), together with
the result of `JSON.parse` on that text (`none` models a JSON syntax
error). -/
structure Frame : Type where
  text : String
  parsed : Option JValue

/-- The errors handed to `onError`: either a plain message string
(envelope-shape errors) or a `DataValidationError` carrying a message
(schema decode errors).  `DataValidationError` instances are determined
by their message (`name` is always the same literal). -/
inductive ErrVal : Type where
  | strMsg (s : String) : ErrVal
  | dataValidationError (msg : String) : ErrVal
deriving DecidableEq, Repr

/-- The caller-supplied error policy `OnError = (err: any) => any`: it
may return a fallback value or throw an exception of type `ε`. -/
def OnError (ε : Type) : Type := ErrVal → Except ε JValue

/-- An io-ts schema descriptor `t.Type<any>`: a name and a decoder.
`decode` returns the decoded value, or the ordered list of
path-qualified error messages that `PathReporter.report` produces for
the failed decode. -/
structure Schema : Type where
  name : String
  decode : JValue → Except (List String) JValue

/-- `NUM_ERRORS = 5`: how many errors are maximally reported. -/
def NUM_ERRORS : Nat := 5

/-- The error-report summary built inside `validate` from the path
reporter output `paths` (the string stored in the
`DataValidationError`): all messages joined by newlines when there are
at most `NUM_ERRORS` of them, otherwise the total count followed by the
first `NUM_ERRORS` messages. -/
def summarizePaths (paths : List String) : String :=
  if paths.length ≤ NUM_ERRORS then
    String.intercalate "\n" paths
  else
    let firstErrors :=
      "First " ++ toString NUM_ERRORS ++ ": " ++
        String.intercalate "\n" (paths.take NUM_ERRORS)
    toString paths.length ++ " errors. " ++ firstErrors

/-- `validate(data, type, onError)` (src/types/index.ts lines 48-76):
decode `data` against `type`; on failure hand a `DataValidationError`
with the summarized message to `onError` and return whatever it
produces (`getOrElseL`); on success return the decoded value. -/
def validate (data : JValue) (type : Schema) (onError : OnError ε) :
    Except ε JValue :=
  match type.decode data with
  | Except.ok decoded => Except.ok decoded
  | Except.error paths =>
      onError (ErrVal.dataValidationError (summarizePaths paths))

/-- `RestValidate.data` (lines 122-128): validate with an `onError`
that rethrows the error it is given, so the exception type is
`ErrVal` itself. -/
def RestValidate.data (data : JValue) (type : Schema) :
    Except ErrVal JValue :=
  validate data type (fun err => Except.error err)

/-- Exceptions escaping a `SocketValidate` call: a `JSON.parse` syntax
error, the TypeError from destructuring a nullish parse result, or an
exception raised by the caller-supplied `onError` hook. -/
inductive SocketExn (ε : Type) : Type where
  | parseError : SocketExn ε
  | typeError : SocketExn ε
  | raised (e : ε) : SocketExn ε
deriving Repr

/-- Outcome of the envelope guard chain of a socket validator: either
`onError` is invoked with `errArg` and its result returned bare, or the
guards pass and `validate` is invoked on `payload` (with `uuid` kept
for the final result object). -/
inductive EnvelopeCheck : Type where
  | fail (errArg : ErrVal) : EnvelopeCheck
  | pass (uuid : JValue) (payload : JValue) : EnvelopeCheck

/-- The guard chain of `SocketValidate.snapshot` (lines 84-90), on the
frame text `text` and its parsed envelope `json`:
`!uuid` → no-UUID error; `!snapshot` → no-snapshot-field error;
`!Array.isArray(snapshot)` → not-an-array error; otherwise pass. -/
def snapshotEnvelope (text : String) (json : JValue) : EnvelopeCheck :=
  let uuid := getField json "uuid"
  let snapshot := getField json "snapshot"
  if !truthy uuid then
    EnvelopeCheck.fail (ErrVal.strMsg ("Message " ++ text ++ " has no UUID"))
  else if !truthy snapshot then
    EnvelopeCheck.fail
      (ErrVal.strMsg ("Message " ++ text ++ " has no \x27snapshot\x27 field!"))
  else if !isArray snapshot then
    EnvelopeCheck.fail
      (ErrVal.strMsg ("Snapshot in message " ++ text ++ " is not an array!"))
  else
    EnvelopeCheck.pass uuid snapshot

/-- The guard chain of `SocketValidate.data` (lines 109-113):
`!uuid` → no-UUID error; `!data` → no-data-field error; otherwise pass
(note: no array check on `data`, unlike `snapshot`). -/
def dataEnvelope (text : String) (json : JValue) : EnvelopeCheck :=
  let uuid := getField json "uuid"
  let data := getField json "data"
  if !truthy uuid then
    EnvelopeCheck.fail (ErrVal.strMsg ("Message " ++ text ++ " has no UUID!"))
  else if !truthy data then
    EnvelopeCheck.fail
      (ErrVal.strMsg ("Message " ++ text ++ " has no \x27data\x27 field!"))
  else
    EnvelopeCheck.pass uuid data

/-- Lift the result of an `onError` call (or of `validate`, which only
throws what `onError` throws) into the socket validator result. -/
def hookResult (r : Except ε JValue) : Except (SocketExn ε) JValue :=
  match r with
  | Except.ok v => Except.ok v
  | Except.error e => Except.error (SocketExn.raised e)

namespace SocketValidate

/-- `SocketValidate.snapshot` (lines 79-95): parse the frame (a syntax
error propagates), run the envelope guards, and on pass delegate to
`validate`; the success result is `{ uuid, snapshot: decoded }`. -/
def snapshot (msg : Frame) (type : Schema) (onError : OnError ε) :
    Except (SocketExn ε) JValue :=
  match msg.parsed with
  | none => Except.error SocketExn.parseError
  | some json =>
      if nullish json then Except.error SocketExn.typeError
      else
        match snapshotEnvelope msg.text json with
        | EnvelopeCheck.fail errArg => hookResult (onError errArg)
        | EnvelopeCheck.pass uuid payload =>
            match validate payload type onError with
            | Except.ok decoded =>
                Except.ok (JValue.obj [("uuid", uuid), ("snapshot", decoded)])
            | Except.error e => Except.error (SocketExn.raised e)

/-- `SocketValidate.data` (lines 97-119): identical skeleton with the
`data` field and the `dataEnvelope` guards; the success result is
`{ uuid, data: decoded }`. -/
def data (msg : Frame) (type : Schema) (onError : OnError ε) :
    Except (SocketExn ε) JValue :=
  match msg.parsed with
  | none => Except.error SocketExn.parseError
  | some json =>
      if nullish json then Except.error SocketExn.typeError
      else
        match dataEnvelope msg.text json with
        | EnvelopeCheck.fail errArg => hookResult (onError errArg)
        | EnvelopeCheck.pass uuid payload =>
            match validate payload type onError with
            | Except.ok decoded =>
                Except.ok (JValue.obj [("uuid", uuid), ("data", decoded)])
            | Except.error e => Except.error (SocketExn.raised e)

end SocketValidate

namespace MessageTypes

/-- `MessageTypes.isSnapshot` (lines 198-199). -/
def isSnapshot (msg : JValue) : Bool :=
  truthy (getField msg "snapshot") && isArray (getField msg "snapshot") &&
    isString (getField msg "uuid")

/-- `MessageTypes.hasUuid` (line 203). -/
def hasUuid (msg : JValue) : Bool :=
  isString (getField msg "uuid")

/-- `MessageTypes.hasDataAndUuid` (lines 205-206). -/
def hasDataAndUuid (msg : JValue) : Bool :=
  isArray (getField msg "data") && hasUuid msg

/-- `MessageTypes.isInvoice` (line 196). -/
def isInvoice (msg : JValue) : Bool :=
  isString (getField msg "invoice")

/-- `MessageTypes.isInitMsg` (line 201). -/
def isInitMsg (msg : JValue) : Bool :=
  isString (getField msg "ln_uri")

/-- The literal `PAYMENT_RECEIVED = 'payment received'` (line 136). -/
def PAYMENT_RECEIVED : String := "payment received"

/-- The literal `UNSUBSCRIBED = 'unsubscribed'` (line 152). -/
def UNSUBSCRIBED : String := "unsubscribed"

/-- `MessageTypes.isPaymentReceived` (lines 214-219). -/
def isPaymentReceived (msg : JValue) : Bool :=
  isString (getField msg "uuid") &&
    isString (getField msg "exchange") &&
    isNumber (getField msg "duration") &&
    strictEqStr (getField msg "event") PAYMENT_RECEIVED &&
    isString (getField msg "symbol")

/-- `MessageTypes.isTimeWarning` (lines 221-222). -/
def isTimeWarning (msg : JValue) : Bool :=
  isString (getField msg "uuid") &&
    !isUndef (getField msg "warnings") &&
    isNumber (getField (getField msg "warnings") "duration")

/-- `MessageTypes.isUnubscribed` (lines 224-225; the source spells the
name without the first `s`). -/
def isUnubscribed (msg : JValue) : Bool :=
  isString (getField msg "uuid") &&
    strictEqStr (getField msg "event") UNSUBSCRIBED &&
    isNumber (getField msg "amountRefunded")

end MessageTypes

/-! Concrete schemas, error policies and frames used to instantiate the
general theorems below. -/

/-- A schema whose decoder accepts every value unchanged (in
particular it accepts empty arrays). -/
def okSchema : Schema := ⟨"OkSchema", fun v => Except.ok v⟩

/-- A schema whose decoder always fails with the given path-qualified
messages. -/
def failSchema (paths : List String) : Schema :=
  ⟨"FailSchema", fun _ => Except.error paths⟩

/-- A lenient error policy: always return `null`. -/
def lenientNull : OnError Unit := fun _ => Except.ok JValue.null

/-- An error policy that returns the error message it was handed, as a
string value. -/
def echoErr : OnError Unit := fun e =>
  match e with
  | ErrVal.strMsg s => Except.ok (JValue.str s)
  | ErrVal.dataValidationError s => Except.ok (JValue.str s)

/-- A strict error policy: rethrow the error it was handed. -/
def strictThrow : OnError ErrVal := fun e => Except.error e

/-- The frame of §8 of the spec: text `'\x7b"snapshot":[1,2]\x7d'`, which
parses to an envelope with no `uuid` field. -/
def c2frame : Frame :=
  ⟨"\x7b\"snapshot\":[1,2]\x7d",
   some (JValue.obj [("snapshot", JValue.arr [JValue.num 1, JValue.num 2])])⟩

/-- The frame `'\x7b"uuid":"abc","data":[]\x7d'` of §8 of the spec. -/
def c5frame : Frame :=
  ⟨"\x7b\"uuid\":\"abc\",\"data\":[]\x7d",
   some (JValue.obj [("uuid", JValue.str "abc"), ("data", JValue.arr [])])⟩

/-- A frame whose envelope carries a present but empty-string `uuid`. -/
def c9frame : Frame :=
  ⟨"\x7b\"uuid\":\"\",\"data\":[1]\x7d",
   some (JValue.obj [("uuid", JValue.str ""), ("data", JValue.arr [JValue.num 1])])⟩

/-- An envelope whose `data` payload is an object, not an array. -/
def c1json : JValue :=
  JValue.obj [("uuid", JValue.str "x"), ("data", JValue.obj [])]

/-- A frame whose `snapshot` envelope passes all guards. -/
def c7frame : Frame :=
  ⟨"\x7b\"uuid\":\"u\",\"snapshot\":[0]\x7d",
   some (JValue.obj [("uuid", JValue.str "u"),
     ("snapshot", JValue.arr [JValue.num 0])])⟩

/-- An error policy returning the fixed fallback string `"FB"`. -/
def fallbackFB : OnError Unit := fun _ => Except.ok (JValue.str "FB")

/-- The message literal of §8: `\x7b"uuid":"x","event":"unsubscribed",
"amountRefunded":5\x7d`. -/
def c8msg : JValue :=
  JValue.obj
    [("uuid", JValue.str "x"), ("event", JValue.str "unsubscribed"),
     ("amountRefunded", JValue.num 5)]

/-! Reduction lemmas for the socket validators, shared by the claim
theorems below. -/

/-- Reduction of `validate` on a failed decode. -/
theorem validate_err (data : JValue) (type : Schema) (onError : OnError ε)
    (paths : List String) (hdec : type.decode data = Except.error paths) :
    validate data type onError =
      onError (ErrVal.dataValidationError (summarizePaths paths)) := by
  simp [validate, hdec]

/-- Reduction of `SocketValidate.snapshot` when the envelope guards
fail: the call returns exactly what `onError` produces. -/
theorem snapshot_env_fail (t : String) (json : JValue) (type : Schema)
    (onError : OnError ε) (e : ErrVal) (hn : nullish json = false)
    (he : snapshotEnvelope t json = EnvelopeCheck.fail e) :
    SocketValidate.snapshot ⟨t, some json⟩ type onError = hookResult (onError e) := by
  simp [SocketValidate.snapshot, hn, he]

/-- Reduction of `SocketValidate.snapshot` when the envelope guards
pass: the call delegates to `validate` and wraps its outcome. -/
theorem snapshot_env_pass (t : String) (json : JValue) (type : Schema)
    (onError : OnError ε) (u payload : JValue) (hn : nullish json = false)
    (he : snapshotEnvelope t json = EnvelopeCheck.pass u payload) :
    SocketValidate.snapshot ⟨t, some json⟩ type onError =
      match validate payload type onError with
      | Except.ok decoded =>
          Except.ok (JValue.obj [("uuid", u), ("snapshot", decoded)])
      | Except.error e => Except.error (SocketExn.raised e) := by
  simp [SocketValidate.snapshot, hn, he]

/-- Reduction of `SocketValidate.data` when the envelope guards
fail. -/
theorem data_env_fail (t : String) (json : JValue) (type : Schema)
    (onError : OnError ε) (e : ErrVal) (hn : nullish json = false)
    (he : dataEnvelope t json = EnvelopeCheck.fail e) :
    SocketValidate.data ⟨t, some json⟩ type onError = hookResult (onError e) := by
  simp [SocketValidate.data, hn, he]

/-- Reduction of `SocketValidate.data` when the envelope guards
pass. -/
theorem data_env_pass (t : String) (json : JValue) (type : Schema)
    (onError : OnError ε) (u payload : JValue) (hn : nullish json = false)
    (he : dataEnvelope t json = EnvelopeCheck.pass u payload) :
    SocketValidate.data ⟨t, some json⟩ type onError =
      match validate payload type onError with
      | Except.ok decoded =>
          Except.ok (JValue.obj [("uuid", u), ("data", decoded)])
      | Except.error e => Except.error (SocketExn.raised e) := by
  simp [SocketValidate.data, hn, he]

/-- A falsy `uuid` makes the `snapshot` guard chain fail with the
no-UUID message. -/
theorem snapshotEnvelope_falsy_uuid (t : String) (json : JValue)
    (hu : truthy (getField json "uuid") = false) :
    snapshotEnvelope t json =
      EnvelopeCheck.fail (ErrVal.strMsg ("Message " ++ t ++ " has no UUID")) := by
  simp [snapshotEnvelope, hu]

/-- A falsy `uuid` makes the `data` guard chain fail with the no-UUID
message (note the trailing `!`, unlike `snapshot`). -/
theorem dataEnvelope_falsy_uuid (t : String) (json : JValue)
    (hu : truthy (getField json "uuid") = false) :
    dataEnvelope t json =
      EnvelopeCheck.fail (ErrVal.strMsg ("Message " ++ t ++ " has no UUID!")) := by
  simp [dataEnvelope, hu]

/-- Reduction of `validate` on a successful decode. -/
theorem validate_ok (data : JValue) (type : Schema) (onError : OnError ε)
    (v : JValue) (hdec : type.decode data = Except.ok v) :
    validate data type onError = Except.ok v := by
  simp [validate, hdec]

/-- Inversion of a passing `snapshot` guard chain: the `uuid` and
`snapshot` fields were read from the envelope, the `uuid` is truthy and
the payload is a (truthy) array. -/
theorem snapshotEnvelope_pass_inv (t : String) (json : JValue) (u p : JValue)
    (h : snapshotEnvelope t json = EnvelopeCheck.pass u p) :
    u = getField json "uuid" ∧ p = getField json "snapshot" ∧
      truthy u = true ∧ truthy p = true ∧ isArray p = true := by
  unfold snapshotEnvelope at h
  by_cases h1 : truthy (getField json "uuid")
  · by_cases h2 : truthy (getField json "snapshot")
    · by_cases h3 : isArray (getField json "snapshot")
      · simp only [h1, h2, h3, Bool.not_true, Bool.false_eq_true, if_false,
          EnvelopeCheck.pass.injEq] at h
        refine ⟨h.1.symm, h.2.symm, ?_, ?_, ?_⟩
        · rw [← h.1]; exact h1
        · rw [← h.2]; exact h2
        · rw [← h.2]; exact h3
      · simp [h1, h2, h3] at h
    · simp [h1, h2] at h
  · simp [h1] at h

/-- Inversion of a passing `data` guard chain: the `uuid` and `data`
fields were read from the envelope and both are truthy; nothing
requires the payload to be an array. -/
theorem dataEnvelope_pass_inv (t : String) (json : JValue) (u p : JValue)
    (h : dataEnvelope t json = EnvelopeCheck.pass u p) :
    u = getField json "uuid" ∧ p = getField json "data" ∧
      truthy u = true ∧ truthy p = true := by
  unfold dataEnvelope at h
  by_cases h1 : truthy (getField json "uuid")
  · by_cases h2 : truthy (getField json "data")
    · simp only [h1, h2, Bool.not_true, Bool.false_eq_true, if_false,
        EnvelopeCheck.pass.injEq] at h
      refine ⟨h.1.symm, h.2.symm, ?_, ?_⟩
      · rw [← h.1]; exact h1
      · rw [← h.2]; exact h2
    · simp [h1, h2] at h
  · simp [h1] at h

/-- The summary string of the error reporter, written out: all
messages joined by newlines when there are at most five, else
`"k errors. First 5: "` followed by the first five messages joined by
newlines. -/
theorem summarizePaths_formula (paths : List String) :
    summarizePaths paths =
      if paths.length ≤ 5 then String.intercalate "\n" paths
      else (toString paths.length ++ " errors. ") ++
        ("First 5: " ++ String.intercalate "\n" (paths.take 5)) := by
  unfold summarizePaths NUM_ERRORS
  split
  · rfl
  · rfl

/-- Claim C3: when schema decoding of a payload fails with an ordered
list of `k` path-qualified messages, the summary placed in the
`DataValidationError` handed to `onError` is the `k` messages joined by
newlines when `k ≤ 5`, and otherwise states the total count and
contains exactly the first five messages, in the form
`"k errors. First 5: ..."`. -/
theorem C3_error_summary (data : JValue) (type : Schema)
    (onError : OnError ε) (paths : List String)
    (hdec : type.decode data = Except.error paths) :
    validate data type onError =
      onError (ErrVal.dataValidationError
        (if paths.length ≤ 5 then String.intercalate "\n" paths
         else (toString paths.length ++ " errors. ") ++
           ("First 5: " ++ String.intercalate "\n" (paths.take 5)))) := by
  rw [validate_err data type onError paths hdec, summarizePaths_formula]

/-- Witness for C3: a failing decode with seven messages yields the
truncated five-message summary, and one with at most five messages the
plain newline join. -/
theorem C3_error_summary_witness :
    (failSchema ["e1", "e2", "e3", "e4", "e5", "e6", "e7"]).decode
        (JValue.arr []) =
      Except.error ["e1", "e2", "e3", "e4", "e5", "e6", "e7"] ∧
    validate (JValue.arr [])
        (failSchema ["e1", "e2", "e3", "e4", "e5", "e6", "e7"]) strictThrow =
      Except.error
        (ErrVal.dataValidationError "7 errors. First 5: e1\ne2\ne3\ne4\ne5") ∧
    validate (JValue.arr []) (failSchema ["e1", "e2"]) strictThrow =
      Except.error (ErrVal.dataValidationError "e1\ne2") :=
  ⟨rfl,
   (C3_error_summary (JValue.arr [])
      (failSchema ["e1", "e2", "e3", "e4", "e5", "e6", "e7"]) strictThrow
      ["e1", "e2", "e3", "e4", "e5", "e6", "e7"] rfl).trans (by rfl),
   (C3_error_summary (JValue.arr []) (failSchema ["e1", "e2"]) strictThrow
      ["e1", "e2"] rfl).trans (by rfl)⟩

/-- Claim C6: `RestValidate.data` throws a `DataValidationError`
carrying the reporter summary on every failed decode (never returning a
sentinel), and returns the decoded value on every successful decode. -/
theorem C6_restValidate_strict (d : JValue) (type : Schema) :
    (∀ paths, type.decode d = Except.error paths →
      RestValidate.data d type =
        Except.error (ErrVal.dataValidationError (summarizePaths paths))) ∧
    (∀ v, type.decode d = Except.ok v →
      RestValidate.data d type = Except.ok v) := by
  constructor
  · intro paths h
    simp [RestValidate.data, validate, strictThrow, h]
  · intro v h
    simp [RestValidate.data, validate, h]

/-- Witness for C6: a failing decode raises the summarized
`DataValidationError`; a successful decode returns the value. -/
theorem C6_restValidate_strict_witness :
    RestValidate.data (JValue.num 1) (failSchema ["bad"]) =
      Except.error (ErrVal.dataValidationError "bad") ∧
    RestValidate.data (JValue.num 1) okSchema = Except.ok (JValue.num 1) :=
  ⟨((C6_restValidate_strict (JValue.num 1) (failSchema ["bad"])).1
      ["bad"] rfl).trans (by rfl),
   (C6_restValidate_strict (JValue.num 1) okSchema).2 (JValue.num 1) rfl⟩

/-- Claim C8: the §8 message literal satisfies `isUnubscribed` and
`hasUuid` but not `isPaymentReceived`, and `isSnapshot` implies
`hasUuid` on every value. -/
theorem C8_classifier_overlap :
    (MessageTypes.isUnubscribed c8msg = true ∧
     MessageTypes.hasUuid c8msg = true ∧
     MessageTypes.isPaymentReceived c8msg = false) ∧
    (∀ msg : JValue, MessageTypes.isSnapshot msg = true →
      MessageTypes.hasUuid msg = true) := by
  refine ⟨⟨rfl, rfl, rfl⟩, ?_⟩
  intro msg h
  unfold MessageTypes.isSnapshot at h
  unfold MessageTypes.hasUuid
  simp only [Bool.and_eq_true] at h
  exact h.2

/-- Witness for C8: `isSnapshot` holds of a concrete snapshot message,
and hence so does `hasUuid`. -/
theorem C8_classifier_overlap_witness :
    MessageTypes.isSnapshot
        (JValue.obj [("uuid", JValue.str "u"), ("snapshot", JValue.arr [])]) =
      true ∧
    MessageTypes.hasUuid
        (JValue.obj [("uuid", JValue.str "u"), ("snapshot", JValue.arr [])]) =
      true :=
  ⟨rfl, C8_classifier_overlap.2 _ rfl⟩

/-- Claim C2: on a frame whose parsed envelope has no `uuid` field,
`SocketValidate.snapshot` hands `onError` a message mentioning
`"no UUID"` and returns exactly what `onError` produces; with a lenient
`onError` returning a value `v` the call returns `v` (in particular
`null`) rather than throwing. -/
theorem C2_snapshot_no_uuid (t : String) (json : JValue) (type : Schema)
    (onError : OnError ε) (hn : nullish json = false)
    (hu : getField json "uuid" = JValue.undef) :
    SocketValidate.snapshot ⟨t, some json⟩ type onError =
      hookResult (onError (ErrVal.strMsg ("Message " ++ t ++ " has no UUID"))) ∧
    (∃ pre post,
      ("Message " ++ t ++ " has no UUID" : String) =
        pre ++ ("no UUID" ++ post)) ∧
    (∀ v, onError (ErrVal.strMsg ("Message " ++ t ++ " has no UUID")) =
        Except.ok v →
      SocketValidate.snapshot ⟨t, some json⟩ type onError = Except.ok v) := by
  have he := snapshotEnvelope_falsy_uuid t json (by rw [hu]; rfl)
  have h1 := snapshot_env_fail t json type onError _ hn he
  refine ⟨h1, ⟨("Message " ++ t) ++ " has ", "", ?_⟩, ?_⟩
  · rw [String.append_assoc ("Message " ++ t) " has " ("no UUID" ++ "")]
    rfl
  · intro v hv
    rw [h1, hv]
    rfl

/-- Witness for C2: the §8 frame `'\x7b"snapshot":[1,2]\x7d'` with the
lenient null-returning policy makes `snapshot` return `null`. -/
theorem C2_snapshot_no_uuid_witness :
    SocketValidate.snapshot c2frame okSchema lenientNull =
      Except.ok JValue.null :=
  (C2_snapshot_no_uuid c2frame.text
      (JValue.obj [("snapshot", JValue.arr [JValue.num 1, JValue.num 2])])
      okSchema lenientNull rfl rfl).2.2 JValue.null rfl

/-- Claim C4: a frame whose text is not well-formed JSON makes both
socket validators propagate the parse failure as a thrown exception;
the outcome is the same for every `onError`, which is therefore never
consulted. -/
theorem C4_parse_failure_propagates (t : String) (type : Schema)
    (onError onError2 : OnError ε) :
    SocketValidate.snapshot ⟨t, none⟩ type onError =
      Except.error SocketExn.parseError ∧
    SocketValidate.data ⟨t, none⟩ type onError =
      Except.error SocketExn.parseError ∧
    SocketValidate.snapshot ⟨t, none⟩ type onError =
      SocketValidate.snapshot ⟨t, none⟩ type onError2 ∧
    SocketValidate.data ⟨t, none⟩ type onError =
      SocketValidate.data ⟨t, none⟩ type onError2 :=
  ⟨rfl, rfl, rfl, rfl⟩

/-- Claim C5: the frame `'\x7b"uuid":"abc","data":[]\x7d'` with a schema
accepting the empty array decodes to correlation identifier `"abc"`
and the empty array, for every error policy (so `onError` is never
consulted): an empty `data` array is tolerated. -/
theorem C5_data_empty_array (type : Schema) (onError : OnError ε)
    (hdec : type.decode (JValue.arr []) = Except.ok (JValue.arr [])) :
    SocketValidate.data c5frame type onError =
      Except.ok
        (JValue.obj [("uuid", JValue.str "abc"), ("data", JValue.arr [])]) := by
  have h := data_env_pass c5frame.text
      (JValue.obj [("uuid", JValue.str "abc"), ("data", JValue.arr [])])
      type onError (JValue.str "abc") (JValue.arr []) rfl rfl
  rw [validate_ok (JValue.arr []) type onError (JValue.arr []) hdec] at h
  exact h

/-- Witness for C5: with the identity schema and the lenient policy the
call returns the decoded envelope. -/
theorem C5_data_empty_array_witness :
    okSchema.decode (JValue.arr []) = Except.ok (JValue.arr []) ∧
    SocketValidate.data c5frame okSchema lenientNull =
      Except.ok
        (JValue.obj [("uuid", JValue.str "abc"), ("data", JValue.arr [])]) :=
  ⟨rfl, C5_data_empty_array okSchema lenientNull rfl⟩

/-- Claim C9: a present but falsy `uuid` (for instance the empty
string) is treated as missing by both socket validators: `onError`
receives the no-UUID message and its result is returned, the guard
chain never passes (so the Decoder is never reached), and whenever a
guard chain does pass the `uuid` was truthy (for a string `uuid`, a
non-empty string). -/
theorem C9_falsy_uuid_missing (t : String) (json : JValue) (type : Schema)
    (onError : OnError ε) (hn : nullish json = false)
    (hu : truthy (getField json "uuid") = false) :
    SocketValidate.snapshot ⟨t, some json⟩ type onError =
      hookResult (onError (ErrVal.strMsg ("Message " ++ t ++ " has no UUID"))) ∧
    SocketValidate.data ⟨t, some json⟩ type onError =
      hookResult
        (onError (ErrVal.strMsg ("Message " ++ t ++ " has no UUID!"))) ∧
    (∀ u p, snapshotEnvelope t json ≠ EnvelopeCheck.pass u p) ∧
    (∀ u p, dataEnvelope t json ≠ EnvelopeCheck.pass u p) ∧
    (∀ t2 j2 u p, snapshotEnvelope t2 j2 = EnvelopeCheck.pass u p →
      truthy u = true) ∧
    (∀ t2 j2 u p, dataEnvelope t2 j2 = EnvelopeCheck.pass u p →
      truthy u = true) ∧
    (∀ s : String, truthy (JValue.str s) = true → s ≠ "") := by
  have hes := snapshotEnvelope_falsy_uuid t json hu
  have hed := dataEnvelope_falsy_uuid t json hu
  refine ⟨snapshot_env_fail t json type onError _ hn hes,
    data_env_fail t json type onError _ hn hed, ?_, ?_, ?_, ?_, ?_⟩
  · intro u p h
    rw [hes] at h
    exact EnvelopeCheck.noConfusion h
  · intro u p h
    rw [hed] at h
    exact EnvelopeCheck.noConfusion h
  · intro t2 j2 u p h
    exact (snapshotEnvelope_pass_inv t2 j2 u p h).2.2.1
  · intro t2 j2 u p h
    exact (dataEnvelope_pass_inv t2 j2 u p h).2.2.1
  · intro s hs
    simpa [truthy] using hs

/-- Witness for C9: a frame with `uuid` the empty string makes both
validators return the lenient policy result `null`, and a concrete
passing guard chain has a truthy `uuid`. -/
theorem C9_falsy_uuid_missing_witness :
    SocketValidate.data c9frame okSchema lenientNull = Except.ok JValue.null ∧
    SocketValidate.snapshot c9frame okSchema lenientNull =
      Except.ok JValue.null ∧
    truthy (JValue.str "x") = true := by
  have h := C9_falsy_uuid_missing c9frame.text
      (JValue.obj [("uuid", JValue.str ""), ("data", JValue.arr [JValue.num 1])])
      okSchema lenientNull rfl rfl
  refine ⟨h.2.1.trans rfl, h.1.trans rfl,
    h.2.2.2.2.1 "t"
      (JValue.obj [("uuid", JValue.str "x"), ("snapshot", JValue.arr [])])
      (JValue.str "x") (JValue.arr []) rfl⟩

/-- Claim C7: an exception raised by the caller-supplied `onError`
hook, at the envelope-shape error point or at the decode error point
of either socket validator, propagates to the original caller exactly
as raised (the `SocketExn.raised` constructor carries it unchanged). -/
theorem C7_onError_exception_propagates (t : String) (json : JValue)
    (type : Schema) (onError : OnError ε) (exn : ε)
    (hn : nullish json = false) :
    (∀ e, snapshotEnvelope t json = EnvelopeCheck.fail e →
      onError e = Except.error exn →
      SocketValidate.snapshot ⟨t, some json⟩ type onError =
        Except.error (SocketExn.raised exn)) ∧
    (∀ u p paths, snapshotEnvelope t json = EnvelopeCheck.pass u p →
      type.decode p = Except.error paths →
      onError (ErrVal.dataValidationError (summarizePaths paths)) =
        Except.error exn →
      SocketValidate.snapshot ⟨t, some json⟩ type onError =
        Except.error (SocketExn.raised exn)) ∧
    (∀ e, dataEnvelope t json = EnvelopeCheck.fail e →
      onError e = Except.error exn →
      SocketValidate.data ⟨t, some json⟩ type onError =
        Except.error (SocketExn.raised exn)) ∧
    (∀ u p paths, dataEnvelope t json = EnvelopeCheck.pass u p →
      type.decode p = Except.error paths →
      onError (ErrVal.dataValidationError (summarizePaths paths)) =
        Except.error exn →
      SocketValidate.data ⟨t, some json⟩ type onError =
        Except.error (SocketExn.raised exn)) := by
  refine ⟨?_, ?_, ?_, ?_⟩
  · intro e he hv
    rw [snapshot_env_fail t json type onError e hn he, hv]
    rfl
  · intro u p paths he hdec hv
    have h := snapshot_env_pass t json type onError u p hn he
    rw [validate_err p type onError paths hdec, hv] at h
    exact h
  · intro e he hv
    rw [data_env_fail t json type onError e hn he, hv]
    rfl
  · intro u p paths he hdec hv
    have h := data_env_pass t json type onError u p hn he
    rw [validate_err p type onError paths hdec, hv] at h
    exact h

/-- Witness for C7: with the rethrowing policy, a no-UUID envelope
error and a failing decode both surface as the raised exception
itself. -/
theorem C7_onError_exception_propagates_witness :
    SocketValidate.snapshot c2frame okSchema strictThrow =
      Except.error (SocketExn.raised
        (ErrVal.strMsg ("Message " ++ c2frame.text ++ " has no UUID"))) ∧
    SocketValidate.snapshot c7frame (failSchema ["bad"]) strictThrow =
      Except.error
        (SocketExn.raised (ErrVal.dataValidationError "bad")) :=
  ⟨(C7_onError_exception_propagates c2frame.text
      (JValue.obj [("snapshot", JValue.arr [JValue.num 1, JValue.num 2])])
      okSchema strictThrow
      (ErrVal.strMsg ("Message " ++ c2frame.text ++ " has no UUID")) rfl).1
      _ rfl rfl,
   (C7_onError_exception_propagates c7frame.text
      (JValue.obj [("uuid", JValue.str "u"),
        ("snapshot", JValue.arr [JValue.num 0])])
      (failSchema ["bad"]) strictThrow
      (ErrVal.dataValidationError "bad") rfl).2.1
      (JValue.str "u") (JValue.arr [JValue.num 0]) ["bad"] rfl rfl rfl⟩

/-- Claim C10: when the envelope guards pass but decoding fails and
`onError` returns a fallback `v` without throwing, the overall result
wraps `v` inside the envelope result with the original `uuid`
(`\x7b uuid, snapshot: v \x7d` resp. `\x7b uuid, data: v \x7d`); for
envelope-shape errors the value `onError` produces is returned bare. -/
theorem C10_fallback_wrapping (t : String) (json : JValue) (type : Schema)
    (onError : OnError ε) (v : JValue) (hn : nullish json = false) :
    (∀ u p paths, snapshotEnvelope t json = EnvelopeCheck.pass u p →
      type.decode p = Except.error paths →
      onError (ErrVal.dataValidationError (summarizePaths paths)) =
        Except.ok v →
      SocketValidate.snapshot ⟨t, some json⟩ type onError =
        Except.ok (JValue.obj [("uuid", u), ("snapshot", v)])) ∧
    (∀ u p paths, dataEnvelope t json = EnvelopeCheck.pass u p →
      type.decode p = Except.error paths →
      onError (ErrVal.dataValidationError (summarizePaths paths)) =
        Except.ok v →
      SocketValidate.data ⟨t, some json⟩ type onError =
        Except.ok (JValue.obj [("uuid", u), ("data", v)])) ∧
    (∀ e, snapshotEnvelope t json = EnvelopeCheck.fail e →
      onError e = Except.ok v →
      SocketValidate.snapshot ⟨t, some json⟩ type onError = Except.ok v) ∧
    (∀ e, dataEnvelope t json = EnvelopeCheck.fail e →
      onError e = Except.ok v →
      SocketValidate.data ⟨t, some json⟩ type onError = Except.ok v) := by
  refine ⟨?_, ?_, ?_, ?_⟩
  · intro u p paths he hdec hv
    have h := snapshot_env_pass t json type onError u p hn he
    rw [validate_err p type onError paths hdec, hv] at h
    exact h
  · intro u p paths he hdec hv
    have h := data_env_pass t json type onError u p hn he
    rw [validate_err p type onError paths hdec, hv] at h
    exact h
  · intro e he hv
    rw [snapshot_env_fail t json type onError e hn he, hv]
    rfl
  · intro e he hv
    rw [data_env_fail t json type onError e hn he, hv]
    rfl

/-- Witness for C10: a failing decode with the `"FB"`-returning policy
yields the fallback wrapped under the original `uuid`, while a missing
`uuid` yields the bare fallback. -/
theorem C10_fallback_wrapping_witness :
    SocketValidate.snapshot c7frame (failSchema ["bad"]) fallbackFB =
      Except.ok (JValue.obj
        [("uuid", JValue.str "u"), ("snapshot", JValue.str "FB")]) ∧
    SocketValidate.data ⟨"T", some c1json⟩ (failSchema ["bad"]) fallbackFB =
      Except.ok (JValue.obj
        [("uuid", JValue.str "x"), ("data", JValue.str "FB")]) ∧
    SocketValidate.snapshot c2frame okSchema fallbackFB =
      Except.ok (JValue.str "FB") :=
  ⟨(C10_fallback_wrapping c7frame.text
      (JValue.obj [("uuid", JValue.str "u"),
        ("snapshot", JValue.arr [JValue.num 0])])
      (failSchema ["bad"]) fallbackFB (JValue.str "FB") rfl).1
      (JValue.str "u") (JValue.arr [JValue.num 0]) ["bad"] rfl rfl rfl,
   (C10_fallback_wrapping "T" c1json (failSchema ["bad"]) fallbackFB
      (JValue.str "FB") rfl).2.1
      (JValue.str "x") (JValue.obj []) ["bad"] rfl rfl rfl,
   (C10_fallback_wrapping c2frame.text
      (JValue.obj [("snapshot", JValue.arr [JValue.num 1, JValue.num 2])])
      okSchema fallbackFB (JValue.str "FB") rfl).2.2.1
      _ rfl rfl⟩

/-- Counterexample to C1: the `data` guard chain passes an envelope
whose `data` payload is an object, not an array, and the Decoder is
then really invoked on that non-array payload (its error is observed
in the result). -/
theorem C1_counterexample :
    dataEnvelope "T" c1json =
      EnvelopeCheck.pass (JValue.str "x") (JValue.obj []) ∧
    isArray (JValue.obj []) = false ∧
    SocketValidate.data ⟨"T", some c1json⟩
        (failSchema ["payload reached decoder"]) echoErr =
      Except.ok (JValue.obj [("uuid", JValue.str "x"),
        ("data", JValue.str "payload reached decoder")]) :=
  ⟨rfl, rfl, rfl⟩

/-- Claim C1 (amended): whenever the Decoder is invoked (the guard
chain passes), the envelope has a truthy `uuid` in both validators;
the payload has been confirmed to be an array for `snapshot`
envelopes, but for `data` envelopes it is only confirmed truthy, not
necessarily an array. -/
theorem C1_envelope_invariant_amended (t : String) (json u p : JValue) :
    (snapshotEnvelope t json = EnvelopeCheck.pass u p →
      truthy u = true ∧ isArray p = true) ∧
    (dataEnvelope t json = EnvelopeCheck.pass u p →
      truthy u = true ∧ truthy p = true) := by
  constructor
  · intro h
    have hinv := snapshotEnvelope_pass_inv t json u p h
    exact ⟨hinv.2.2.1, hinv.2.2.2.2⟩
  · intro h
    have hinv := dataEnvelope_pass_inv t json u p h
    exact ⟨hinv.2.2.1, hinv.2.2.2⟩

/-- Witness for C1 (amended): a concrete passing `snapshot` chain has
a truthy `uuid` and an array payload; a concrete passing `data` chain
has a truthy `uuid` and a truthy payload. -/
theorem C1_envelope_invariant_amended_witness :
    (truthy (JValue.str "u") = true ∧
      isArray (JValue.arr [JValue.num 0]) = true) ∧
    (truthy (JValue.str "x") = true ∧ truthy (JValue.obj []) = true) :=
  ⟨(C1_envelope_invariant_amended c7frame.text
      (JValue.obj [("uuid", JValue.str "u"),
        ("snapshot", JValue.arr [JValue.num 0])])
      (JValue.str "u") (JValue.arr [JValue.num 0])).1 rfl,
   (C1_envelope_invariant_amended "T" c1json
      (JValue.str "x") (JValue.obj [])).2 rfl⟩
